import Mathlib

/-!
Verification of `Crosshair.py` (CelsiumCrosshair): a shallow embedding of the
overlay widget, its settings panel handlers, and the Win32 click-through call,
with theorems settling the frozen claims about the spec.

Conventions of the embedding:
* Python integers are `Int` (unbounded); widget pixel dimensions are `Nat`.
* Qt rectangle arithmetic uses C++ `int` division truncating toward zero,
  modelled by `Int.tdiv`.
* Painting is modelled as the list of draw commands a `paintEvent` call emits.
* Qt side effects that the claims talk about are explicit state fields:
  `shown` is the OS-level shown/hidden state toggled by `show()`/`hide()`,
  and `update_pending` records that `update()` scheduled a repaint.
-/

namespace CelsiumCrosshair

/-- RGBA color, one byte per channel, as constructed by `QColor(r, g, b, a)`. -/
structure QColor where
  r : Nat
  g : Nat
  b : Nat
  a : Nat
deriving DecidableEq, Repr

/-- Decoded bitmap, identified by its pixel dimensions.  `QPixmap(path)` on a
failed decode yields the null pixmap, which has width 0 and height 0. -/
structure QPixmap where
  w : Nat
  h : Nat
deriving DecidableEq, Repr

/-- Result of `QPixmap(image_path)` when the decode fails. -/
def nullPixmap : QPixmap := ⟨0, 0⟩

/-- Integer point, as `QPoint`. -/
structure QPoint where
  x : Int
  y : Int
deriving DecidableEq, Repr

/-- Integer rectangle `(x, y, w, h)`, as `QRect`; Qt stores the corner
`x2 = x + w - 1` internally. -/
structure QRect where
  x : Int
  y : Int
  w : Int
  h : Int
deriving DecidableEq, Repr

/-- Qt `QRect::center()`: `QPoint((x1 + x2) / 2, (y1 + y2) / 2)` with
`x2 = x + w - 1`, C++ truncating division. -/
def QRect.center (r : QRect) : QPoint :=
  ⟨Int.tdiv (r.x + (r.x + r.w - 1)) 2, Int.tdiv (r.y + (r.y + r.h - 1)) 2⟩

/-- Qt `QRect::moveCenter(p)`: with internal spans `w1 = x2 - x1 = w - 1` and
`h1 = h - 1`, sets `x1 = p.x - w1 / 2` and `y1 = p.y - h1 / 2`, keeping the
width and height (C++ truncating division). -/
def QRect.moveCenter (r : QRect) (p : QPoint) : QRect :=
  ⟨p.x - Int.tdiv (r.w - 1) 2, p.y - Int.tdiv (r.h - 1) 2, r.w, r.h⟩

/-- Qt `QPixmap::rect()`: `QRect(0, 0, width(), height())`. -/
def QPixmap.rect (pm : QPixmap) : QRect := ⟨0, 0, (pm.w : Int), (pm.h : Int)⟩

/-- Pen: the color and stroke width a line is drawn with. -/
structure QPen where
  color : QColor
  width : Int
deriving DecidableEq, Repr

/-- Draw command emitted by the painter: either a pixmap blit into a target
rectangle or a line segment stroked with a pen. -/
inductive DrawCmd where
  | drawPixmap (target : QRect) (pm : QPixmap)
  | drawLine (x1 y1 x2 y2 : Int) (pen : QPen)
deriving DecidableEq, Repr

/-- Whether a command is a line stroke (the procedural crosshair lines). -/
def DrawCmd.isLine : DrawCmd → Bool
  | .drawLine _ _ _ _ _ => true
  | .drawPixmap _ _ => false

/-- Whether a command renders no pixels at all: Qt `drawPixmap` with a pixmap
of zero width or height (in particular the null pixmap) is a no-op. -/
def DrawCmd.rendersNoPixels : DrawCmd → Bool
  | .drawPixmap _ pm => pm.w == 0 || pm.h == 0
  | .drawLine _ _ _ _ _ => false

/-- Painter state: the current pen and the commands emitted so far.
`QPainter(self)` starts with the default pen, a black pen of width 1. -/
structure Painter where
  pen : QPen
  cmds : List DrawCmd
deriving DecidableEq, Repr

/-- Fresh painter as constructed by `QPainter(self)`. -/
def Painter.start : Painter := ⟨⟨⟨0, 0, 0, 255⟩, 1⟩, []⟩

/-- Qt `QPainter::setPen(QPen)`. -/
def Painter.setPen (p : Painter) (pen : QPen) : Painter := { p with pen := pen }

/-- Qt `QPainter::setPen(QColor)`: installs a solid pen of that color with the
default width 1. -/
def Painter.setPenColor (p : Painter) (c : QColor) : Painter :=
  { p with pen := ⟨c, 1⟩ }

/-- Qt `QPainter::drawLine(x1, y1, x2, y2)`: emits a line stroked with the
current pen. -/
def Painter.drawLine (p : Painter) (x1 y1 x2 y2 : Int) : Painter :=
  { p with cmds := p.cmds ++ [.drawLine x1 y1 x2 y2 p.pen] }

/-- Qt `QPainter::drawPixmap(rect, pixmap)`. -/
def Painter.drawPixmap (p : Painter) (r : QRect) (pm : QPixmap) : Painter :=
  { p with cmds := p.cmds ++ [.drawPixmap r pm] }

/-- Win32 extended-style flag `WS_EX_LAYERED` (line 8). -/
def WS_EX_LAYERED : Nat := 0x80000

/-- Win32 extended-style flag `WS_EX_TRANSPARENT` (line 9). -/
def WS_EX_TRANSPARENT : Nat := 0x20

/-- Value written back by `make_window_click_through` (lines 12-15): the
extended style read by `GetWindowLongW` with the two flags ORed in; the
`SetWindowLongW` return value is discarded by the source. -/
def make_window_click_through (extended_style : Nat) : Nat :=
  extended_style ||| WS_EX_LAYERED ||| WS_EX_TRANSPARENT

/-- State of a `CrosshairOverlay` widget.  `default_size`, `default_thickness`
and `default_color` are the instance fields assigned once in `__init__`;
`width`/`height` is the geometry fixed at construction to the desktop size;
`shown` is the OS-level shown/hidden state (`show()` / `hide()`);
`update_pending` records that `update()` scheduled a repaint. -/
structure CrosshairOverlay where
  crosshair_visible : Bool
  default_size : Int
  default_thickness : Int
  default_color : QColor
  size : Int
  thickness : Int
  color : QColor
  crosshair_image : Option QPixmap
  width : Nat
  height : Nat
  shown : Bool
  update_pending : Bool
deriving DecidableEq, Repr

/-- Qt `QWidget::update()`: schedules a repaint. -/
def qupdate (s : CrosshairOverlay) : CrosshairOverlay :=
  { s with update_pending := true }

/-- Qt `QWidget::show()`: the window becomes shown at the OS level. -/
def qshow (s : CrosshairOverlay) : CrosshairOverlay := { s with shown := true }

/-- Qt `QWidget::hide()`: the window becomes hidden at the OS level. -/
def qhide (s : CrosshairOverlay) : CrosshairOverlay := { s with shown := false }

/-- Method `reset_to_default` (lines 38-43): restores `size`, `thickness` and
`color` from the `default_*` fields, sets `crosshair_image = None`, and calls
`self.update()`. -/
def reset_to_default (s : CrosshairOverlay) : CrosshairOverlay :=
  qupdate { s with
    size := s.default_size
    thickness := s.default_thickness
    color := s.default_color
    crosshair_image := none }

/-- Constructor `__init__` (lines 18-36): geometry spans the desktop,
`crosshair_visible = False`, the three `default_*` fields are assigned,
`reset_to_default()` populates the config, the 16 ms timer is started, and
`self.show()` is called before `make_window_click_through(self.winId())`
(which touches only the OS style word, not this state).  Python leaves
`size`/`thickness`/`color`/`crosshair_image` unbound until `reset_to_default`
assigns them; the placeholder values below are overwritten by that call. -/
def CrosshairOverlay.init (desktop_width desktop_height : Nat) : CrosshairOverlay :=
  let s : CrosshairOverlay :=
    { crosshair_visible := false
      default_size := 15
      default_thickness := 2
      default_color := ⟨255, 0, 0, 255⟩
      size := 0
      thickness := 0
      color := ⟨0, 0, 0, 0⟩
      crosshair_image := none
      width := desktop_width
      height := desktop_height
      shown := false
      update_pending := false }
  qshow (reset_to_default s)

/-- Timer slot `update_overlay` (lines 45-49), run on every 16 ms tick:
`show()` when `crosshair_visible` else `hide()`. -/
def update_overlay (s : CrosshairOverlay) : CrosshairOverlay :=
  if s.crosshair_visible then qshow s else qhide s

/-- Method `toggle_crosshair` (lines 51-52): assigns `crosshair_visible`
and nothing else (no `update()`, no `show()`/`hide()`). -/
def toggle_crosshair (s : CrosshairOverlay) (visible : Bool) : CrosshairOverlay :=
  { s with crosshair_visible := visible }

/-- Method `set_size` (lines 54-56). -/
def set_size (s : CrosshairOverlay) (size : Int) : CrosshairOverlay :=
  qupdate { s with size := size }

/-- Method `set_thickness` (lines 58-60). -/
def set_thickness (s : CrosshairOverlay) (thickness : Int) : CrosshairOverlay :=
  qupdate { s with thickness := thickness }

/-- Method `set_color` (lines 62-64). -/
def set_color (s : CrosshairOverlay) (color : QColor) : CrosshairOverlay :=
  qupdate { s with color := color }

/-- Method `load_custom_crosshair` (lines 66-68): `QPixmap(image_path)` always
constructs a pixmap object — the decoded bitmap on success, the null pixmap on
a failed decode (`decoded = none`); no exception is raised and nothing is
reported.  The result is stored and `update()` is called. -/
def load_custom_crosshair (s : CrosshairOverlay) (decoded : Option QPixmap) :
    CrosshairOverlay :=
  qupdate { s with crosshair_image := some (decoded.getD nullPixmap) }

/-- Qt `QWidget::rect()`: `QRect(0, 0, width(), height())`. -/
def CrosshairOverlay.rect (s : CrosshairOverlay) : QRect :=
  ⟨0, 0, (s.width : Int), (s.height : Int)⟩

/-- Method `paintEvent` (lines 70-97), as the list of draw commands it emits.
Line 76 tests `if self.crosshair_image:` with Python truthiness: `None` is
falsy, while every PyQt `QPixmap` object is truthy (sip wrappers define
neither a boolean conversion nor a length), including the null pixmap — so
the test is exactly `crosshair_image` being not `None`.  `mid_x`/`mid_y` use
Python floor division `//` on the nonnegative widget dimensions. -/
def paintEvent (s : CrosshairOverlay) : List DrawCmd :=
  if s.crosshair_visible = false then []
  else
    let painter := Painter.start
    match s.crosshair_image with
    | some img =>
        let image_rect := img.rect
        let image_rect := image_rect.moveCenter s.rect.center
        (painter.drawPixmap image_rect img).cmds
    | none =>
        let painter := painter.setPenColor s.color
        let mid_x : Int := ((s.width / 2 : Nat) : Int)
        let mid_y : Int := ((s.height / 2 : Nat) : Int)
        let pen : QPen := { painter.pen with width := s.thickness }
        let painter := painter.setPen pen
        let painter := painter.drawLine (mid_x - s.size) mid_y (mid_x + s.size) mid_y
        let painter := painter.drawLine mid_x (mid_y - s.size) mid_x (mid_y + s.size)
        painter.cmds

/-- Mutating events on a constructed overlay: the public methods the panel
calls, plus the timer tick (`paintEvent` reads but never writes the state). -/
inductive Op where
  | toggle (v : Bool)
  | setSize (v : Int)
  | setThickness (v : Int)
  | setColor (c : QColor)
  | load (decoded : Option QPixmap)
  | reset
  | tick
deriving DecidableEq, Repr

/-- Applies one event to the overlay state. -/
def applyOp (s : CrosshairOverlay) : Op → CrosshairOverlay
  | .toggle v => toggle_crosshair s v
  | .setSize v => set_size s v
  | .setThickness v => set_thickness s v
  | .setColor c => set_color s c
  | .load d => load_custom_crosshair s d
  | .reset => reset_to_default s
  | .tick => update_overlay s

/-- Overlay states the running program can be in: the constructed state
followed by any sequence of events. -/
inductive Reachable : CrosshairOverlay → Prop
  | init (w h : Nat) : Reachable (CrosshairOverlay.init w h)
  | step {s : CrosshairOverlay} (o : Op) : Reachable s → Reachable (applyOp s o)

/-- State of the `CrosshairSettingsUI` panel that the claims mention: the
overlay reference and the panel's own widgets' mutable contents. -/
structure CrosshairSettingsUI where
  crosshair_overlay : CrosshairOverlay
  size_label : String
  thickness_label : String
  fov_label : String
  crosshair_button_text : String
  crosshair_button_checked : Bool
deriving DecidableEq, Repr

/-- Handler `update_fov` (lines 231-233): sets the FOV label text; the
comment line 233 is a placeholder, nothing else happens. -/
def CrosshairSettingsUI.update_fov (ui : CrosshairSettingsUI) (value : Int) :
    CrosshairSettingsUI :=
  { ui with fov_label := "Field of View (FOV): " ++ toString value }

/-- Handler `choose_color` (lines 235-238): `QColorDialog.getColor()` returns
an invalid color when the dialog is cancelled, modelled as `none`; only a
valid color (`color.isValid()`) is forwarded to `set_color`. -/
def CrosshairSettingsUI.choose_color (ui : CrosshairSettingsUI)
    (dialogColor : Option QColor) : CrosshairSettingsUI :=
  match dialogColor with
  | some color => { ui with crosshair_overlay := set_color ui.crosshair_overlay color }
  | none => ui

/-- Handler `upload_custom_crosshair` (lines 240-244): the file dialog returns
the empty string on cancel (`if file_path:` is Python truthiness of the
string); a nonempty path is forwarded to `load_custom_crosshair`, whose
`QPixmap(path)` decode is modelled by `decodeImage`. -/
def CrosshairSettingsUI.upload_custom_crosshair (ui : CrosshairSettingsUI)
    (file_path : String) (decodeImage : String → Option QPixmap) :
    CrosshairSettingsUI :=
  if file_path = "" then ui
  else
    { ui with
      crosshair_overlay := load_custom_crosshair ui.crosshair_overlay (decodeImage file_path) }

/-- Handler `update_size` (lines 223-225). -/
def CrosshairSettingsUI.update_size (ui : CrosshairSettingsUI) (value : Int) :
    CrosshairSettingsUI :=
  { ui with
    size_label := "Crosshair Size: " ++ toString value
    crosshair_overlay := set_size ui.crosshair_overlay value }

/-- Handler `update_thickness` (lines 227-229). -/
def CrosshairSettingsUI.update_thickness (ui : CrosshairSettingsUI) (value : Int) :
    CrosshairSettingsUI :=
  { ui with
    thickness_label := "Crosshair Thickness: " ++ toString value
    crosshair_overlay := set_thickness ui.crosshair_overlay value }

/-- Handler `remove_custom_crosshair` (lines 246-247). -/
def CrosshairSettingsUI.remove_custom_crosshair (ui : CrosshairSettingsUI) :
    CrosshairSettingsUI :=
  { ui with crosshair_overlay := reset_to_default ui.crosshair_overlay }

/-- Handler `toggle_crosshair` (lines 249-255): reads the checkable button's
state and forwards it, updating the button caption. -/
def CrosshairSettingsUI.toggle_crosshair (ui : CrosshairSettingsUI) :
    CrosshairSettingsUI :=
  if ui.crosshair_button_checked then
    { ui with
      crosshair_button_text := "Disable Crosshair"
      crosshair_overlay := CelsiumCrosshair.toggle_crosshair ui.crosshair_overlay true }
  else
    { ui with
      crosshair_button_text := "Enable Crosshair"
      crosshair_overlay := CelsiumCrosshair.toggle_crosshair ui.crosshair_overlay false }

/-! ## Helper lemmas -/

/-- Truncating division of natural casts agrees with natural division. -/
lemma tdiv_two_ofNat (m : Nat) : Int.tdiv (m : Int) 2 = ((m / 2 : Nat) : Int) := rfl

/-- Core Qt rounding fact: placing a span of extent `w ≥ 1` so that its left
end is `c - (w-1)/2` puts its Qt midpoint back at `c`, for nonnegative `c`
(C++ truncating division). -/
lemma qt_center_shift (c w : Int) (hw : 1 ≤ w) (hc : 0 ≤ c) :
    Int.tdiv ((c - Int.tdiv (w - 1) 2) + ((c - Int.tdiv (w - 1) 2) + w - 1)) 2 = c := by
  obtain ⟨k, rfl⟩ := Int.eq_ofNat_of_zero_le hc
  obtain ⟨m, hm⟩ := Int.eq_ofNat_of_zero_le (by omega : (0 : Int) ≤ w - 1)
  have hw2 : w = (m : Int) + 1 := by omega
  subst hw2
  have h1 : (m : Int) + 1 - 1 = (m : Int) := by ring
  rw [h1, tdiv_two_ofNat]
  have h2 : ((k : Int) - ((m / 2 : Nat) : Int)) +
      (((k : Int) - ((m / 2 : Nat) : Int)) + ((m : Int) + 1) - 1) =
      ((2 * k + m % 2 : Nat) : Int) := by
    push_cast
    omega
  rw [h2, tdiv_two_ofNat]
  have h3 : (2 * k + m % 2) / 2 = k := by omega
  rw [h3]

/-- Truncated halving of `W - 1` is nonnegative for every natural `W`
(including `W = 0`, where it is `(-1).tdiv 2 = 0`). -/
lemma tdiv_pred_nonneg (W : Nat) : 0 ≤ Int.tdiv ((W : Int) - 1) 2 := by
  cases W with
  | zero => decide
  | succ m =>
      have h1 : ((m + 1 : Nat) : Int) - 1 = (m : Int) := by push_cast; ring
      rw [h1, tdiv_two_ofNat]
      exact Int.natCast_nonneg _

/-- Center coordinates of the overlay surface rectangle are nonnegative. -/
lemma overlay_center_nonneg (s : CrosshairOverlay) :
    0 ≤ s.rect.center.x ∧ 0 ≤ s.rect.center.y := by
  constructor <;>
    · simp only [CrosshairOverlay.rect, QRect.center, zero_add]
      exact tdiv_pred_nonneg _

/-- Timer tick writes the current `crosshair_visible` flag into the OS-level
shown state. -/
lemma update_overlay_shown (s : CrosshairOverlay) :
    (update_overlay s).shown = s.crosshair_visible := by
  by_cases h : s.crosshair_visible <;> simp [update_overlay, h, qshow, qhide]

/-! ## Claims -/

/-- C8: for every prior extended-style bit-field value `s`, the click-through
call writes back exactly `s OR 0x80000 OR 0x20` (`WS_EX_LAYERED` and
`WS_EX_TRANSPARENT` set), consuming no return value, and changes no other
style bits. -/
theorem C8_click_through_style (s : Nat) :
    make_window_click_through s = s ||| WS_EX_LAYERED ||| WS_EX_TRANSPARENT ∧
    Nat.testBit (make_window_click_through s) 19 = true ∧
    Nat.testBit (make_window_click_through s) 5 = true ∧
    ∀ i : Nat, i ≠ 19 → i ≠ 5 →
      Nat.testBit (make_window_click_through s) i = Nat.testBit s i := by
  refine ⟨rfl, ?_, ?_, ?_⟩
  · have hL : Nat.testBit WS_EX_LAYERED 19 = true := by decide
    simp [make_window_click_through, Nat.testBit_or, hL]
  · have hT : Nat.testBit WS_EX_TRANSPARENT 5 = true := by decide
    simp [make_window_click_through, Nat.testBit_or, hT]
  · intro i h19 h5
    have hL : Nat.testBit WS_EX_LAYERED i = false := by
      have he : WS_EX_LAYERED = 2 ^ 19 := by norm_num [WS_EX_LAYERED]
      rw [he]
      exact Nat.testBit_two_pow_of_ne fun hh => h19 hh.symm
    have hT : Nat.testBit WS_EX_TRANSPARENT i = false := by
      have he : WS_EX_TRANSPARENT = 2 ^ 5 := by norm_num [WS_EX_TRANSPARENT]
      rw [he]
      exact Nat.testBit_two_pow_of_ne fun hh => h5 hh.symm
    simp [make_window_click_through, Nat.testBit_or, hL, hT]

/-- Witness for C8 at the concrete style word `0x100`: bit 8 survives
untouched while bits 19 and 5 are set. -/
theorem C8_click_through_style_witness :
    Nat.testBit (make_window_click_through 0x100) 8 = Nat.testBit 0x100 8 :=
  (C8_click_through_style 0x100).2.2.2 8 (by decide) (by decide)

/-- C10: the extended-style update `s ↦ s OR WS_EX_LAYERED OR
WS_EX_TRANSPARENT` is idempotent and monotone (it never clears a bit that was
already set). -/
theorem C10_click_through_idempotent_monotone :
    (∀ s : Nat,
      make_window_click_through (make_window_click_through s) =
        make_window_click_through s) ∧
    (∀ s i : Nat, Nat.testBit s i = true →
      Nat.testBit (make_window_click_through s) i = true) := by
  constructor
  · intro s
    apply Nat.eq_of_testBit_eq
    intro i
    simp only [make_window_click_through, Nat.testBit_or]
    cases Nat.testBit s i <;> cases Nat.testBit WS_EX_LAYERED i <;>
      cases Nat.testBit WS_EX_TRANSPARENT i <;> rfl
  · intro s i h
    simp [make_window_click_through, Nat.testBit_or, h]

/-- Witness for C10: monotonicity at style word 4, bit 2. -/
theorem C10_click_through_idempotent_monotone_witness :
    Nat.testBit (make_window_click_through 4) 2 = true :=
  C10_click_through_idempotent_monotone.2 4 2 (by decide)

/-- C4: each procedural setter stores its argument into exactly its own
config field with no validation, schedules a repaint, and leaves
`crosshair_image`, `crosshair_visible`, the other two config fields, and the
OS-level shown state unchanged; in particular no setter clears the custom
image. -/
theorem C4_setters_exact_field (s : CrosshairOverlay) (v : Int) (c : QColor) :
    set_size s v = { s with size := v, update_pending := true } ∧
    set_thickness s v = { s with thickness := v, update_pending := true } ∧
    set_color s c = { s with color := c, update_pending := true } ∧
    (set_size s v).crosshair_image = s.crosshair_image ∧
    (set_thickness s v).crosshair_image = s.crosshair_image ∧
    (set_color s c).crosshair_image = s.crosshair_image ∧
    (set_size s v).crosshair_visible = s.crosshair_visible ∧
    (set_thickness s v).crosshair_visible = s.crosshair_visible ∧
    (set_color s c).crosshair_visible = s.crosshair_visible ∧
    (set_size s v).shown = s.shown ∧
    (set_thickness s v).shown = s.shown ∧
    (set_color s c).shown = s.shown :=
  ⟨rfl, rfl, rfl, rfl, rfl, rfl, rfl, rfl, rfl, rfl, rfl, rfl⟩

/-- C9: the FOV slider handler rewrites only the FOV label text; the overlay
state and every other panel field are untouched. -/
theorem C9_update_fov_only_label (ui : CrosshairSettingsUI) (value : Int) :
    CrosshairSettingsUI.update_fov ui value =
      { ui with fov_label := "Field of View (FOV): " ++ toString value } ∧
    (CrosshairSettingsUI.update_fov ui value).crosshair_overlay = ui.crosshair_overlay ∧
    (CrosshairSettingsUI.update_fov ui value).size_label = ui.size_label ∧
    (CrosshairSettingsUI.update_fov ui value).thickness_label = ui.thickness_label ∧
    (CrosshairSettingsUI.update_fov ui value).crosshair_button_text =
      ui.crosshair_button_text ∧
    (CrosshairSettingsUI.update_fov ui value).crosshair_button_checked =
      ui.crosshair_button_checked :=
  ⟨rfl, rfl, rfl, rfl, rfl, rfl⟩

/-- The `default_*` instance fields are assigned once in `__init__` and never
written again: every reachable overlay state carries size 15, thickness 2 and
opaque red. -/
lemma reachable_defaults {s : CrosshairOverlay} (h : Reachable s) :
    s.default_size = 15 ∧ s.default_thickness = 2 ∧
      s.default_color = ⟨255, 0, 0, 255⟩ := by
  induction h with
  | init w h => exact ⟨rfl, rfl, rfl⟩
  | step o _ ih =>
      cases o <;>
        simpa [applyOp, toggle_crosshair, set_size, set_thickness, set_color,
          load_custom_crosshair, reset_to_default, update_overlay, qupdate,
          qshow, qhide, update_overlay_shown, apply_ite] using ih

/-- C2: from every reachable prior state, `reset_to_default` leaves size 15,
thickness 2, opaque red RGBA(255,0,0,255), no custom image, and schedules a
repaint. -/
theorem C2_reset_restores_defaults (s : CrosshairOverlay) (h : Reachable s) :
    (reset_to_default s).size = 15 ∧
    (reset_to_default s).thickness = 2 ∧
    (reset_to_default s).color = ⟨255, 0, 0, 255⟩ ∧
    (reset_to_default s).crosshair_image = none ∧
    (reset_to_default s).update_pending = true := by
  obtain ⟨h1, h2, h3⟩ := reachable_defaults h
  exact ⟨h1, h2, h3, rfl, rfl⟩

/-- Witness for C2: resetting after changing every config field of a freshly
constructed overlay restores the defaults. -/
theorem C2_reset_restores_defaults_witness :
    (reset_to_default (set_color (set_thickness (set_size
        (load_custom_crosshair (CrosshairOverlay.init 1920 1080) (some ⟨10, 6⟩))
        40) 5) ⟨0, 0, 255, 255⟩)).size = 15 ∧
    (reset_to_default (set_color (set_thickness (set_size
        (load_custom_crosshair (CrosshairOverlay.init 1920 1080) (some ⟨10, 6⟩))
        40) 5) ⟨0, 0, 255, 255⟩)).thickness = 2 ∧
    (reset_to_default (set_color (set_thickness (set_size
        (load_custom_crosshair (CrosshairOverlay.init 1920 1080) (some ⟨10, 6⟩))
        40) 5) ⟨0, 0, 255, 255⟩)).color = ⟨255, 0, 0, 255⟩ ∧
    (reset_to_default (set_color (set_thickness (set_size
        (load_custom_crosshair (CrosshairOverlay.init 1920 1080) (some ⟨10, 6⟩))
        40) 5) ⟨0, 0, 255, 255⟩)).crosshair_image = none ∧
    (reset_to_default (set_color (set_thickness (set_size
        (load_custom_crosshair (CrosshairOverlay.init 1920 1080) (some ⟨10, 6⟩))
        40) 5) ⟨0, 0, 255, 255⟩)).update_pending = true :=
  C2_reset_restores_defaults _
    ((((Reachable.init 1920 1080).step (Op.load (some ⟨10, 6⟩))).step
        (Op.setSize 40)).step (Op.setThickness 5) |>.step
      (Op.setColor ⟨0, 0, 255, 255⟩))

/-- C5 counterexample: at construction `crosshair_visible` is false, yet the
surface is shown at the OS level (`__init__` calls `self.show()` on line 35),
contradicting the claim that it is not shown until the enable control sets
the flag. -/
theorem C5_init_shown_counterexample :
    (CrosshairOverlay.init 1920 1080).crosshair_visible = false ∧
    (CrosshairOverlay.init 1920 1080).shown = true :=
  ⟨rfl, rfl⟩

/-- C5 (amended): at construction `crosshair_visible` is false but the
surface is OS-level shown (the constructor calls `show()`); the first timer
tick then hides it; the flag is written by no event other than the toggle,
and every tick reads the flag to decide show/hide. -/
theorem C5_visibility_lifecycle (w h : Nat) (s : CrosshairOverlay) (o : Op) :
    (CrosshairOverlay.init w h).crosshair_visible = false ∧
    (CrosshairOverlay.init w h).shown = true ∧
    (update_overlay (CrosshairOverlay.init w h)).shown = false ∧
    ((∀ v : Bool, o ≠ Op.toggle v) →
      (applyOp s o).crosshair_visible = s.crosshair_visible) ∧
    (update_overlay s).shown = s.crosshair_visible := by
  refine ⟨rfl, rfl, rfl, ?_, update_overlay_shown s⟩
  intro hno
  cases o with
  | toggle v => exact absurd rfl (hno v)
  | setSize v => rfl
  | setThickness v => rfl
  | setColor c => rfl
  | load d => rfl
  | reset => rfl
  | tick =>
      by_cases hv : s.crosshair_visible <;>
        simp [applyOp, update_overlay, hv, qshow, qhide]

/-- Witness for C5 (amended) at a fresh 1920x1080 overlay and a size event. -/
theorem C5_visibility_lifecycle_witness :
    (applyOp (CrosshairOverlay.init 1920 1080) (Op.setSize 40)).crosshair_visible =
      (CrosshairOverlay.init 1920 1080).crosshair_visible :=
  (C5_visibility_lifecycle 1920 1080 (CrosshairOverlay.init 1920 1080)
      (Op.setSize 40)).2.2.2.1 (by intro v h; cases h)

/-- C6: the toggle writes only the `crosshair_visible` flag (no repaint
scheduled, no OS-level show/hide); any sequence of toggles between ticks is
resolved by the next tick to the last written value; toggling true then false
before a tick yields hidden; and no event other than the tick changes the
OS-level shown state. -/
theorem C6_toggle_last_write_wins (s : CrosshairOverlay) (v : Bool)
    (vs : List Bool) (o : Op) :
    toggle_crosshair s v = { s with crosshair_visible := v } ∧
    (toggle_crosshair s v).update_pending = s.update_pending ∧
    (toggle_crosshair s v).shown = s.shown ∧
    (update_overlay (List.foldl toggle_crosshair s (vs ++ [v]))).shown = v ∧
    (update_overlay (toggle_crosshair (toggle_crosshair s true) false)).shown =
      false ∧
    (o ≠ Op.tick → (applyOp s o).shown = s.shown) := by
  refine ⟨rfl, rfl, rfl, ?_, ?_, ?_⟩
  · rw [List.foldl_append, update_overlay_shown]
    rfl
  · rw [update_overlay_shown]
    rfl
  · intro hno
    cases o with
    | toggle v => rfl
    | setSize v => rfl
    | setThickness v => rfl
    | setColor c => rfl
    | load d => rfl
    | reset => rfl
    | tick => exact absurd rfl hno

/-- Witness for C6: toggling true, then false, then true before the tick, the
tick shows the window (last write wins), and a size event preserves the
OS-level shown state. -/
theorem C6_toggle_last_write_wins_witness :
    (update_overlay (List.foldl toggle_crosshair (CrosshairOverlay.init 1920 1080)
        ([true, false] ++ [true]))).shown = true ∧
    (applyOp (CrosshairOverlay.init 1920 1080) (Op.setSize 40)).shown =
      (CrosshairOverlay.init 1920 1080).shown :=
  ⟨(C6_toggle_last_write_wins (CrosshairOverlay.init 1920 1080) true
      [true, false] Op.tick).2.2.2.1,
   (C6_toggle_last_write_wins (CrosshairOverlay.init 1920 1080) true
      [true, false] (Op.setSize 40)).2.2.2.2.2 (by intro h; cases h)⟩

/-- C7: a cancelled color dialog (invalid color) or a cancelled file dialog
(empty path) leaves the whole panel and overlay untouched; a valid result
forwards exactly the chosen color to `set_color`, respectively the chosen
path's decode to `load_custom_crosshair`. -/
theorem C7_dialog_cancel_noop (ui : CrosshairSettingsUI) (c : QColor)
    (path : String) (fs : String → Option QPixmap) :
    CrosshairSettingsUI.choose_color ui none = ui ∧
    CrosshairSettingsUI.upload_custom_crosshair ui "" fs = ui ∧
    (CrosshairSettingsUI.choose_color ui (some c)).crosshair_overlay =
      set_color ui.crosshair_overlay c ∧
    (path ≠ "" →
      (CrosshairSettingsUI.upload_custom_crosshair ui path fs).crosshair_overlay =
        load_custom_crosshair ui.crosshair_overlay (fs path)) := by
  refine ⟨rfl, rfl, rfl, ?_⟩
  intro hpath
  simp [CrosshairSettingsUI.upload_custom_crosshair, hpath]

/-- Witness for C7: a concrete panel forwarding the path "cross.png". -/
theorem C7_dialog_cancel_noop_witness :
    (CrosshairSettingsUI.upload_custom_crosshair
        ⟨CrosshairOverlay.init 1920 1080, "Crosshair Size: 15",
          "Crosshair Thickness: 2", "Field of View (FOV): 90",
          "Enable Crosshair", false⟩
        "cross.png" (fun _ => some ⟨10, 6⟩)).crosshair_overlay =
      load_custom_crosshair (CrosshairOverlay.init 1920 1080) (some ⟨10, 6⟩) :=
  (C7_dialog_cancel_noop
      ⟨CrosshairOverlay.init 1920 1080, "Crosshair Size: 15",
        "Crosshair Thickness: 2", "Field of View (FOV): 90",
        "Enable Crosshair", false⟩
      ⟨0, 0, 255, 255⟩ "cross.png" (fun _ => some ⟨10, 6⟩)).2.2.2 (by decide)

/-- C3: a failed decode stores the null pixmap, which counts as a present
image (`isSome`), with no error raised and a repaint scheduled as usual;
every render of a visible overlay carrying the null pixmap takes the image
branch — a single blit of the null pixmap, no procedural line, no pixel
rendered — and no event other than a reset or another load changes the
stored image. -/
theorem C3_decode_failure_silent_blank (s t : CrosshairOverlay) (o : Op) :
    (load_custom_crosshair s none).crosshair_image = some nullPixmap ∧
    ((load_custom_crosshair s none).crosshair_image).isSome = true ∧
    (load_custom_crosshair s none).update_pending = true ∧
    (t.crosshair_image = some nullPixmap → t.crosshair_visible = true →
      (∃ r : QRect, paintEvent t = [DrawCmd.drawPixmap r nullPixmap]) ∧
      (∀ c ∈ paintEvent t, DrawCmd.isLine c = false ∧
        DrawCmd.rendersNoPixels c = true)) ∧
    (o ≠ Op.reset → (∀ d : Option QPixmap, o ≠ Op.load d) →
      (applyOp (load_custom_crosshair s none) o).crosshair_image =
        some nullPixmap) := by
  refine ⟨rfl, rfl, rfl, ?_, ?_⟩
  · intro himg hvis
    have hp : paintEvent t =
        [DrawCmd.drawPixmap (QRect.moveCenter (QPixmap.rect nullPixmap)
          t.rect.center) nullPixmap] := by
      simp [paintEvent, hvis, himg, Painter.start, Painter.drawPixmap]
    exact ⟨⟨_, hp⟩, by simp [hp, DrawCmd.isLine, DrawCmd.rendersNoPixels, nullPixmap]⟩
  · intro hreset hload
    cases o with
    | toggle v => rfl
    | setSize v => rfl
    | setThickness v => rfl
    | setColor c => rfl
    | load d => exact absurd rfl (hload d)
    | reset => exact absurd rfl hreset
    | tick =>
        simp only [applyOp, update_overlay, qshow, qhide]
        split <;> rfl

/-- Witness for C3: a fresh overlay after a failed decode, made visible,
blits only the null pixmap, and a size event keeps the null pixmap stored. -/
theorem C3_decode_failure_silent_blank_witness :
    ((∃ r : QRect,
        paintEvent (toggle_crosshair
          (load_custom_crosshair (CrosshairOverlay.init 1920 1080) none) true) =
          [DrawCmd.drawPixmap r nullPixmap]) ∧
      (∀ c ∈ paintEvent (toggle_crosshair
          (load_custom_crosshair (CrosshairOverlay.init 1920 1080) none) true),
        DrawCmd.isLine c = false ∧ DrawCmd.rendersNoPixels c = true)) ∧
    (applyOp (load_custom_crosshair (CrosshairOverlay.init 1920 1080) none)
        (Op.setSize 40)).crosshair_image = some nullPixmap :=
  ⟨(C3_decode_failure_silent_blank (CrosshairOverlay.init 1920 1080)
      (toggle_crosshair
        (load_custom_crosshair (CrosshairOverlay.init 1920 1080) none) true)
      (Op.setSize 40)).2.2.2.1 rfl rfl,
   (C3_decode_failure_silent_blank (CrosshairOverlay.init 1920 1080)
      (toggle_crosshair
        (load_custom_crosshair (CrosshairOverlay.init 1920 1080) none) true)
      (Op.setSize 40)).2.2.2.2 (by decide) (by intro d h; cases h)⟩

/-- C1: the render procedure draws nothing when `crosshair_visible` is false;
with a present custom image it emits exactly one blit of that image, sized
like the image and Qt-centered in the surface bounds, and no line; otherwise
it emits exactly the two perpendicular segments from midpoint minus `size` to
midpoint plus `size` (horizontal then vertical), each stroked with a pen of
width `thickness` in `color`. -/
theorem C1_paintEvent_render (s : CrosshairOverlay) :
    (s.crosshair_visible = false → paintEvent s = []) ∧
    (∀ pm : QPixmap, s.crosshair_visible = true → s.crosshair_image = some pm →
      ∃ r : QRect,
        paintEvent s = [DrawCmd.drawPixmap r pm] ∧
        r.w = (pm.w : Int) ∧ r.h = (pm.h : Int) ∧
        (1 ≤ pm.w → r.center.x = s.rect.center.x) ∧
        (1 ≤ pm.h → r.center.y = s.rect.center.y) ∧
        ∀ c ∈ paintEvent s, DrawCmd.isLine c = false) ∧
    (s.crosshair_visible = true → s.crosshair_image = none →
      paintEvent s =
        [DrawCmd.drawLine (((s.width / 2 : Nat) : Int) - s.size)
            ((s.height / 2 : Nat) : Int)
            (((s.width / 2 : Nat) : Int) + s.size)
            ((s.height / 2 : Nat) : Int) ⟨s.color, s.thickness⟩,
         DrawCmd.drawLine ((s.width / 2 : Nat) : Int)
            (((s.height / 2 : Nat) : Int) - s.size)
            ((s.width / 2 : Nat) : Int)
            (((s.height / 2 : Nat) : Int) + s.size) ⟨s.color, s.thickness⟩]) := by
  refine ⟨fun hvis => ?_, fun pm hvis himg => ?_, fun hvis himg => ?_⟩
  · simp [paintEvent, hvis]
  · have hp : paintEvent s =
        [DrawCmd.drawPixmap (QRect.moveCenter (QPixmap.rect pm) s.rect.center) pm] := by
      simp [paintEvent, hvis, himg, Painter.start, Painter.drawPixmap]
    refine ⟨QRect.moveCenter (QPixmap.rect pm) s.rect.center, hp, rfl, rfl, ?_, ?_, ?_⟩
    · intro hw
      have hw1 : (1 : Int) ≤ (pm.w : Int) := by exact_mod_cast hw
      simpa [QPixmap.rect, QRect.moveCenter, QRect.center] using
        qt_center_shift s.rect.center.x (pm.w : Int) hw1 (overlay_center_nonneg s).1
    · intro hh
      have hh1 : (1 : Int) ≤ (pm.h : Int) := by exact_mod_cast hh
      simpa [QPixmap.rect, QRect.moveCenter, QRect.center] using
        qt_center_shift s.rect.center.y (pm.h : Int) hh1 (overlay_center_nonneg s).2
    · simp [hp, DrawCmd.isLine]
  · simp [paintEvent, hvis, himg, Painter.start, Painter.setPenColor,
      Painter.setPen, Painter.drawLine]

/-- Witness for C1: all three render branches at a fresh 1920x1080 overlay —
hidden renders nothing, a visible overlay with a 10x6 image emits one
centered blit, and a visible overlay without an image emits the two default
segments. -/
theorem C1_paintEvent_render_witness :
    paintEvent (CrosshairOverlay.init 1920 1080) = [] ∧
    (∃ r : QRect,
      paintEvent (toggle_crosshair (load_custom_crosshair
          (CrosshairOverlay.init 1920 1080) (some ⟨10, 6⟩)) true) =
        [DrawCmd.drawPixmap r ⟨10, 6⟩] ∧
      r.w = ((10 : Nat) : Int) ∧ r.h = ((6 : Nat) : Int) ∧
      (1 ≤ (10 : Nat) → r.center.x =
        (toggle_crosshair (load_custom_crosshair
          (CrosshairOverlay.init 1920 1080) (some ⟨10, 6⟩)) true).rect.center.x) ∧
      (1 ≤ (6 : Nat) → r.center.y =
        (toggle_crosshair (load_custom_crosshair
          (CrosshairOverlay.init 1920 1080) (some ⟨10, 6⟩)) true).rect.center.y) ∧
      ∀ c ∈ paintEvent (toggle_crosshair (load_custom_crosshair
          (CrosshairOverlay.init 1920 1080) (some ⟨10, 6⟩)) true),
        DrawCmd.isLine c = false) ∧
    paintEvent (toggle_crosshair (CrosshairOverlay.init 1920 1080) true) =
      [DrawCmd.drawLine (960 - 15) 540 (960 + 15) 540 ⟨⟨255, 0, 0, 255⟩, 2⟩,
       DrawCmd.drawLine 960 (540 - 15) 960 (540 + 15) ⟨⟨255, 0, 0, 255⟩, 2⟩] :=
  ⟨(C1_paintEvent_render (CrosshairOverlay.init 1920 1080)).1 rfl,
   (C1_paintEvent_render (toggle_crosshair (load_custom_crosshair
      (CrosshairOverlay.init 1920 1080) (some ⟨10, 6⟩)) true)).2.1 ⟨10, 6⟩ rfl rfl,
   (C1_paintEvent_render (toggle_crosshair
      (CrosshairOverlay.init 1920 1080) true)).2.2 rfl rfl⟩

end CelsiumCrosshair
